import Mathlib

/-!
Verification development for the dvd-screen-saver program (`src/main.ts`).

The program is a single-file animation: a `FlyingRectangle` entity bounces
inside a canvas sized to the window, flipping direction and advancing a color
counter on every wall collision, driven by an `Application` frame loop.

The shallow embedding below translates the source definitions:
* `Sizes` — the configuration object (canvas dimensions come from the
  environment, `window.innerWidth` / `window.innerHeight`; rectangle
  dimensions are the constants 128 and 72).
* `Directions` — the direction constants.
* `colors` — the 8-color palette.
* `FlyingRectangle` — the entity state, with `setup`, `update`,
  `updateColor`, `render` as pure state transformers (rendering returns the
  unchanged state together with the list of issued drawing commands).
* `Application` — the driver; its `create` models DOM mutation of the
  mounting element and the fallible retrieval of the 2d context, and
  `startup` models the top-level `document.querySelector` check followed by
  `Application.create`.
-/

/-- The `Sizes` configuration object. `CANVAS_WIDTH` and `CANVAS_HEIGHT` are
taken from the environment (`window.innerWidth`, `window.innerHeight`) at
load time, so they are fields; the rectangle dimensions are the fixed
constants of the source. -/
structure Sizes where
  CANVAS_WIDTH : Int
  CANVAS_HEIGHT : Int
deriving DecidableEq, Repr

/-- `Sizes.RECT_WIDTH: 128`. -/
def Sizes.RECT_WIDTH (_ : Sizes) : Int := 128

/-- `Sizes.RECT_HEIGHT: 72`. -/
def Sizes.RECT_HEIGHT (_ : Sizes) : Int := 72

/-- `Math.floor(this.CANVAS_WIDTH / 2 - this.RECT_WIDTH / 2)`.
Since `RECT_WIDTH = 128` is even, `⌊W/2 - 128/2⌋ = ⌊(W - 128)/2⌋`, which is
`Int.fdiv` (flooring division). -/
def Sizes.rectCenterX (s : Sizes) : Int :=
  (s.CANVAS_WIDTH - s.RECT_WIDTH).fdiv 2

/-- `Math.floor(this.CANVAS_HEIGHT / 2 - this.RECT_HEIGHT / 2)`; as above,
`RECT_HEIGHT = 72` is even. -/
def Sizes.rectCenterY (s : Sizes) : Int :=
  (s.CANVAS_HEIGHT - s.RECT_HEIGHT).fdiv 2

namespace Directions

/-- `UP: -1`. -/
def UP : Int := -1

/-- `DOWN: 1`. -/
def DOWN : Int := 1

/-- `LEFT: -1`. -/
def LEFT : Int := -1

/-- `RIGHT: 1`. -/
def RIGHT : Int := 1

end Directions

/-- The fixed 8-color palette. -/
def colors : List String :=
  ["red", "green", "blue", "yellow", "pink", "magenta", "orange", "white"]

/-- Mutable state of the `FlyingRectangle` entity: the monotone color
counter `colorIndex`, the cached effective color string, the scalar speed,
the position and the per-axis directions. -/
structure FlyingRectangle where
  colorIndex : Nat
  color : String
  speed : Int
  x : Int
  y : Int
  xDir : Int
  yDir : Int
deriving DecidableEq, Repr

namespace FlyingRectangle

/-- Field initializers of the class:
`colorIndex = 0`, `color = colors[0]`, `speed = 2`,
`x = Sizes.rectCenterX()`, `y = Sizes.rectCenterY()`, `xDir = 1`,
`yDir = 1`. -/
def init (s : Sizes) : FlyingRectangle :=
  { colorIndex := 0
    color := colors.getD 0 ("")
    speed := 2
    x := s.rectCenterX
    y := s.rectCenterY
    xDir := 1
    yDir := 1 }

/-- `setup() {}` — the empty method body. -/
def setup (r : FlyingRectangle) : FlyingRectangle := r

/-- `updateColor()`: increment the counter, recompute the effective color as
`colors[colorIndex % colors.length]`. -/
def updateColor (r : FlyingRectangle) : FlyingRectangle :=
  let ci := r.colorIndex + 1
  { r with colorIndex := ci, color := colors.getD (ci % colors.length) ("") }

/-- First `if` block of `update()`: collision at the right,
`this.x + Sizes.RECT_WIDTH >= Sizes.CANVAS_WIDTH`. -/
def collideRight (s : Sizes) (r : FlyingRectangle) : FlyingRectangle :=
  if r.x + s.RECT_WIDTH ≥ s.CANVAS_WIDTH then
    updateColor { r with xDir := Directions.LEFT } else r

/-- Second `if` block of `update()`: collision at the left, `this.x <= 0`. -/
def collideLeft (r : FlyingRectangle) : FlyingRectangle :=
  if r.x ≤ 0 then
    updateColor { r with xDir := Directions.RIGHT } else r

/-- Third `if` block of `update()`: collision at the bottom,
`this.y + Sizes.RECT_HEIGHT >= Sizes.CANVAS_HEIGHT`. -/
def collideBottom (s : Sizes) (r : FlyingRectangle) : FlyingRectangle :=
  if r.y + s.RECT_HEIGHT ≥ s.CANVAS_HEIGHT then
    updateColor { r with yDir := Directions.UP } else r

/-- Fourth `if` block of `update()`: collision at the top, `this.y <= 0`. -/
def collideTop (r : FlyingRectangle) : FlyingRectangle :=
  if r.y ≤ 0 then
    updateColor { r with yDir := Directions.DOWN } else r

/-- Final statements of `update()`:
`this.x += this.xDir * this.speed; this.y += this.yDir * this.speed`. -/
def move (r : FlyingRectangle) : FlyingRectangle :=
  { r with x := r.x + r.xDir * r.speed, y := r.y + r.yDir * r.speed }

/-- `update()`: the four independent boundary checks in source order (each
one flips a direction and calls `updateColor`), then the move
`x += xDir * speed; y += yDir * speed`. The checks read `this.x` / `this.y`,
which no check mutates, and `this.xDir` / `this.yDir` / `this.colorIndex`,
which are threaded sequentially. -/
def update (s : Sizes) (r : FlyingRectangle) : FlyingRectangle :=
  let r1 := if r.x + s.RECT_WIDTH ≥ s.CANVAS_WIDTH then
      updateColor { r with xDir := Directions.LEFT } else r
  let r2 := if r1.x ≤ 0 then
      updateColor { r1 with xDir := Directions.RIGHT } else r1
  let r3 := if r2.y + s.RECT_HEIGHT ≥ s.CANVAS_HEIGHT then
      updateColor { r2 with yDir := Directions.UP } else r2
  let r4 := if r3.y ≤ 0 then
      updateColor { r3 with yDir := Directions.DOWN } else r3
  { r4 with x := r4.x + r4.xDir * r4.speed, y := r4.y + r4.yDir * r4.speed }

end FlyingRectangle

/-- Drawing commands issued against the `CanvasRenderingContext2D`; the
visible output of a frame is the list of commands in issue order. -/
inductive DrawCmd where
  | beginPath : DrawCmd
  | setFillStyle : String → DrawCmd
  | fillRect : Int → Int → Int → Int → DrawCmd
  | clearRect : Int → Int → Int → Int → DrawCmd
deriving DecidableEq, Repr

/-- `render(context)`: `beginPath`, set `fillStyle` to the current color,
`fillRect(x, y, RECT_WIDTH, RECT_HEIGHT)`. The method assigns no field, so
the returned state is the input state; the second component is the list of
commands issued to the context. -/
def FlyingRectangle.render (s : Sizes) (r : FlyingRectangle) :
    FlyingRectangle × List DrawCmd :=
  (r, [DrawCmd.beginPath, DrawCmd.setFillStyle r.color,
       DrawCmd.fillRect r.x r.y s.RECT_WIDTH s.RECT_HEIGHT])

/-- The `<canvas>` element created by `Application.create`. -/
structure Canvas where
  width : Int
  height : Int
  style : String
deriving DecidableEq, Repr

/-- The mounting element (`div#root`): what matters for the embedding is its
list of appended children. -/
structure MountElem where
  children : List Canvas
deriving DecidableEq, Repr

/-- Driver state: the ordered entity collection. `FlyingRectangle` is the
only entity variant in the program. The rendering context handle is modelled
by returning drawing commands from `render`. -/
structure Application where
  entities : List FlyingRectangle
deriving DecidableEq, Repr

namespace Application

/-- `setup()`: push one `FlyingRectangle` onto the collection. -/
def setup (s : Sizes) (app : Application) : Application :=
  { app with entities := app.entities ++ [FlyingRectangle.init s] }

/-- `update()`: call `update()` on every entity in collection order. -/
def update (s : Sizes) (app : Application) : Application :=
  { app with entities := app.entities.map (FlyingRectangle.update s) }

/-- `clear()`: `clearRect(0, 0, CANVAS_WIDTH, CANVAS_HEIGHT)`. -/
def clear (s : Sizes) : List DrawCmd :=
  [DrawCmd.clearRect 0 0 s.CANVAS_WIDTH s.CANVAS_HEIGHT]

/-- `render()`: `clear()`, then `render(context)` on every entity in
collection order. Returns the (entity-wise rendered) driver state and the
full command list of the frame. -/
def render (s : Sizes) (app : Application) : Application × List DrawCmd :=
  let es := app.entities.map (fun e => e.render s)
  ({ app with entities := es.map Prod.fst },
   clear s ++ (es.map Prod.snd).flatten)

/-- `Application.create(root)`: build the canvas sized to the environment,
append it to the mounting element, then try to obtain the 2d context;
`ctxAvail` models whether `canvas.getContext('2d')` returns non-null. The
mounting element is returned alongside the outcome because `appendChild`
runs before the context check. -/
def create (s : Sizes) (ctxAvail : Bool) (root : MountElem) :
    MountElem × Except String Application :=
  let canvas : Canvas :=
    { width := s.CANVAS_WIDTH, height := s.CANVAS_HEIGHT,
      style := ("background: #000") }
  let root' : MountElem := { children := root.children ++ [canvas] }
  if ctxAvail then
    (root', Except.ok { entities := [] })
  else
    (root', Except.error ("Failed to retrieve rendering context"))

end Application

/-- The top-level startup sequence: `document.querySelector('div#root')`
(modelled by the optional mounting element), the missing-root check, then
`Application.create`. -/
def startup (s : Sizes) (root? : Option MountElem) (ctxAvail : Bool) :
    Except String Application :=
  match root? with
  | none => Except.error ("Root element is missing")
  | some root => (Application.create s ctxAvail root).2

/-- The cached `color` field agrees with the observable color
`colors[colorIndex % colors.length]`. Holds at construction and is preserved
by every operation. -/
def FlyingRectangle.colorOk (r : FlyingRectangle) : Prop :=
  r.color = colors.getD (r.colorIndex % colors.length) ("")

instance (r : FlyingRectangle) : Decidable r.colorOk := by
  unfold FlyingRectangle.colorOk
  infer_instance

/-- State invariant of the bouncing rectangle: fixed speed 2, unit
directions, and position within `[-speed, surfaceDimension]` on each axis. -/
def FlyingRectangle.Inv (s : Sizes) (r : FlyingRectangle) : Prop :=
  r.speed = 2 ∧ (r.xDir = -1 ∨ r.xDir = 1) ∧ (r.yDir = -1 ∨ r.yDir = 1) ∧
    -r.speed ≤ r.x ∧ r.x ≤ s.CANVAS_WIDTH ∧
    -r.speed ≤ r.y ∧ r.y ≤ s.CANVAS_HEIGHT

instance (s : Sizes) (r : FlyingRectangle) : Decidable (r.Inv s) := by
  unfold FlyingRectangle.Inv
  infer_instance

namespace FlyingRectangle

/-- The sequential `if` blocks of `update()` are the composition of the four
collision steps followed by the move. Definitional. -/
theorem update_eq (s : Sizes) (r : FlyingRectangle) :
    update s r = move (collideTop (collideBottom s (collideLeft (collideRight s r)))) :=
  rfl

theorem collideRight_x (s : Sizes) (r : FlyingRectangle) :
    (collideRight s r).x = r.x := by
  unfold collideRight updateColor
  split_ifs <;> rfl

theorem collideRight_y (s : Sizes) (r : FlyingRectangle) :
    (collideRight s r).y = r.y := by
  unfold collideRight updateColor
  split_ifs <;> rfl

theorem collideRight_speed (s : Sizes) (r : FlyingRectangle) :
    (collideRight s r).speed = r.speed := by
  unfold collideRight updateColor
  split_ifs <;> rfl

theorem collideRight_yDir (s : Sizes) (r : FlyingRectangle) :
    (collideRight s r).yDir = r.yDir := by
  unfold collideRight updateColor
  split_ifs <;> rfl

theorem collideRight_xDir (s : Sizes) (r : FlyingRectangle) :
    (collideRight s r).xDir =
      if r.x + s.RECT_WIDTH ≥ s.CANVAS_WIDTH then Directions.LEFT else r.xDir := by
  unfold collideRight updateColor
  split_ifs <;> rfl

theorem collideRight_colorIndex (s : Sizes) (r : FlyingRectangle) :
    (collideRight s r).colorIndex =
      if r.x + s.RECT_WIDTH ≥ s.CANVAS_WIDTH then r.colorIndex + 1 else r.colorIndex := by
  unfold collideRight updateColor
  split_ifs <;> rfl

theorem collideLeft_x (r : FlyingRectangle) : (collideLeft r).x = r.x := by
  unfold collideLeft updateColor
  split_ifs <;> rfl

theorem collideLeft_y (r : FlyingRectangle) : (collideLeft r).y = r.y := by
  unfold collideLeft updateColor
  split_ifs <;> rfl

theorem collideLeft_speed (r : FlyingRectangle) : (collideLeft r).speed = r.speed := by
  unfold collideLeft updateColor
  split_ifs <;> rfl

theorem collideLeft_yDir (r : FlyingRectangle) : (collideLeft r).yDir = r.yDir := by
  unfold collideLeft updateColor
  split_ifs <;> rfl

theorem collideLeft_xDir (r : FlyingRectangle) :
    (collideLeft r).xDir = if r.x ≤ 0 then Directions.RIGHT else r.xDir := by
  unfold collideLeft updateColor
  split_ifs <;> rfl

theorem collideLeft_colorIndex (r : FlyingRectangle) :
    (collideLeft r).colorIndex =
      if r.x ≤ 0 then r.colorIndex + 1 else r.colorIndex := by
  unfold collideLeft updateColor
  split_ifs <;> rfl

theorem collideBottom_x (s : Sizes) (r : FlyingRectangle) :
    (collideBottom s r).x = r.x := by
  unfold collideBottom updateColor
  split_ifs <;> rfl

theorem collideBottom_y (s : Sizes) (r : FlyingRectangle) :
    (collideBottom s r).y = r.y := by
  unfold collideBottom updateColor
  split_ifs <;> rfl

theorem collideBottom_speed (s : Sizes) (r : FlyingRectangle) :
    (collideBottom s r).speed = r.speed := by
  unfold collideBottom updateColor
  split_ifs <;> rfl

theorem collideBottom_xDir (s : Sizes) (r : FlyingRectangle) :
    (collideBottom s r).xDir = r.xDir := by
  unfold collideBottom updateColor
  split_ifs <;> rfl

theorem collideBottom_yDir (s : Sizes) (r : FlyingRectangle) :
    (collideBottom s r).yDir =
      if r.y + s.RECT_HEIGHT ≥ s.CANVAS_HEIGHT then Directions.UP else r.yDir := by
  unfold collideBottom updateColor
  split_ifs <;> rfl

theorem collideBottom_colorIndex (s : Sizes) (r : FlyingRectangle) :
    (collideBottom s r).colorIndex =
      if r.y + s.RECT_HEIGHT ≥ s.CANVAS_HEIGHT then r.colorIndex + 1 else r.colorIndex := by
  unfold collideBottom updateColor
  split_ifs <;> rfl

theorem collideTop_x (r : FlyingRectangle) : (collideTop r).x = r.x := by
  unfold collideTop updateColor
  split_ifs <;> rfl

theorem collideTop_y (r : FlyingRectangle) : (collideTop r).y = r.y := by
  unfold collideTop updateColor
  split_ifs <;> rfl

theorem collideTop_speed (r : FlyingRectangle) : (collideTop r).speed = r.speed := by
  unfold collideTop updateColor
  split_ifs <;> rfl

theorem collideTop_xDir (r : FlyingRectangle) : (collideTop r).xDir = r.xDir := by
  unfold collideTop updateColor
  split_ifs <;> rfl

theorem collideTop_yDir (r : FlyingRectangle) :
    (collideTop r).yDir = if r.y ≤ 0 then Directions.DOWN else r.yDir := by
  unfold collideTop updateColor
  split_ifs <;> rfl

theorem collideTop_colorIndex (r : FlyingRectangle) :
    (collideTop r).colorIndex =
      if r.y ≤ 0 then r.colorIndex + 1 else r.colorIndex := by
  unfold collideTop updateColor
  split_ifs <;> rfl

theorem move_x (r : FlyingRectangle) : (move r).x = r.x + r.xDir * r.speed := rfl

theorem move_y (r : FlyingRectangle) : (move r).y = r.y + r.yDir * r.speed := rfl

theorem move_speed (r : FlyingRectangle) : (move r).speed = r.speed := rfl

theorem move_xDir (r : FlyingRectangle) : (move r).xDir = r.xDir := rfl

theorem move_yDir (r : FlyingRectangle) : (move r).yDir = r.yDir := rfl

theorem move_colorIndex (r : FlyingRectangle) : (move r).colorIndex = r.colorIndex := rfl

theorem move_color (r : FlyingRectangle) : (move r).color = r.color := rfl

theorem update_speed (s : Sizes) (r : FlyingRectangle) :
    (update s r).speed = r.speed := by
  simp only [update_eq, move_speed, collideTop_speed, collideBottom_speed,
    collideLeft_speed, collideRight_speed]

theorem update_xDir (s : Sizes) (r : FlyingRectangle) :
    (update s r).xDir =
      if r.x ≤ 0 then Directions.RIGHT
      else if r.x + s.RECT_WIDTH ≥ s.CANVAS_WIDTH then Directions.LEFT
      else r.xDir := by
  simp only [update_eq, move_xDir, collideTop_xDir, collideBottom_xDir,
    collideLeft_xDir, collideLeft_x, collideRight_x, collideRight_xDir]

theorem update_yDir (s : Sizes) (r : FlyingRectangle) :
    (update s r).yDir =
      if r.y ≤ 0 then Directions.DOWN
      else if r.y + s.RECT_HEIGHT ≥ s.CANVAS_HEIGHT then Directions.UP
      else r.yDir := by
  simp only [update_eq, move_yDir, collideTop_yDir, collideTop_y,
    collideBottom_yDir, collideBottom_y, collideLeft_y, collideRight_y,
    collideLeft_yDir, collideRight_yDir]

theorem update_x (s : Sizes) (r : FlyingRectangle) :
    (update s r).x = r.x + (update s r).xDir * r.speed := by
  simp only [update_eq, move_x, move_xDir, collideTop_x, collideTop_xDir,
    collideTop_speed, collideBottom_x, collideBottom_xDir, collideBottom_speed,
    collideLeft_x, collideLeft_xDir, collideLeft_speed, collideRight_x,
    collideRight_xDir, collideRight_speed]

theorem update_y (s : Sizes) (r : FlyingRectangle) :
    (update s r).y = r.y + (update s r).yDir * r.speed := by
  simp only [update_eq, move_y, move_yDir, collideTop_y, collideTop_yDir,
    collideTop_speed, collideBottom_y, collideBottom_yDir, collideBottom_speed,
    collideLeft_y, collideLeft_yDir, collideLeft_speed, collideRight_y,
    collideRight_yDir, collideRight_speed]

theorem update_colorIndex (s : Sizes) (r : FlyingRectangle) :
    (update s r).colorIndex = r.colorIndex
      + (if r.x + s.RECT_WIDTH ≥ s.CANVAS_WIDTH then 1 else 0)
      + (if r.x ≤ 0 then 1 else 0)
      + (if r.y + s.RECT_HEIGHT ≥ s.CANVAS_HEIGHT then 1 else 0)
      + (if r.y ≤ 0 then 1 else 0) := by
  simp only [update_eq, move_colorIndex, collideTop_colorIndex, collideTop_y,
    collideBottom_colorIndex, collideBottom_y, collideLeft_colorIndex,
    collideLeft_x, collideLeft_y, collideRight_x, collideRight_y,
    collideRight_colorIndex]
  split_ifs <;> omega

theorem updateColor_colorOk (r : FlyingRectangle) : (updateColor r).colorOk := by
  unfold updateColor colorOk
  rfl

theorem collideRight_colorOk (s : Sizes) (r : FlyingRectangle) (h : r.colorOk) :
    (collideRight s r).colorOk := by
  unfold collideRight
  split_ifs
  · exact updateColor_colorOk _
  · exact h

theorem collideLeft_colorOk (r : FlyingRectangle) (h : r.colorOk) :
    (collideLeft r).colorOk := by
  unfold collideLeft
  split_ifs
  · exact updateColor_colorOk _
  · exact h

theorem collideBottom_colorOk (s : Sizes) (r : FlyingRectangle) (h : r.colorOk) :
    (collideBottom s r).colorOk := by
  unfold collideBottom
  split_ifs
  · exact updateColor_colorOk _
  · exact h

theorem collideTop_colorOk (r : FlyingRectangle) (h : r.colorOk) :
    (collideTop r).colorOk := by
  unfold collideTop
  split_ifs
  · exact updateColor_colorOk _
  · exact h

theorem move_colorOk (r : FlyingRectangle) (h : r.colorOk) : (move r).colorOk := h

theorem update_colorOk (s : Sizes) (r : FlyingRectangle) (h : r.colorOk) :
    (update s r).colorOk := by
  rw [update_eq]
  exact move_colorOk _ (collideTop_colorOk _
    (collideBottom_colorOk s _ (collideLeft_colorOk _ (collideRight_colorOk s _ h))))

theorem init_colorOk (s : Sizes) : (init s).colorOk := rfl

/-- Steps whose condition is false leave the state unchanged. -/
theorem collideRight_of_not (s : Sizes) (r : FlyingRectangle)
    (h : ¬ r.x + s.RECT_WIDTH ≥ s.CANVAS_WIDTH) : collideRight s r = r := by
  unfold collideRight
  exact if_neg h

theorem collideLeft_of_not (r : FlyingRectangle) (h : ¬ r.x ≤ 0) :
    collideLeft r = r := by
  unfold collideLeft
  exact if_neg h

theorem collideBottom_of_not (s : Sizes) (r : FlyingRectangle)
    (h : ¬ r.y + s.RECT_HEIGHT ≥ s.CANVAS_HEIGHT) : collideBottom s r = r := by
  unfold collideBottom
  exact if_neg h

theorem collideTop_of_not (r : FlyingRectangle) (h : ¬ r.y ≤ 0) :
    collideTop r = r := by
  unfold collideTop
  exact if_neg h

/-- Away from every boundary, `update()` is just the move. -/
theorem update_interior (s : Sizes) (r : FlyingRectangle)
    (h1 : ¬ r.x + s.RECT_WIDTH ≥ s.CANVAS_WIDTH) (h2 : ¬ r.x ≤ 0)
    (h3 : ¬ r.y + s.RECT_HEIGHT ≥ s.CANVAS_HEIGHT) (h4 : ¬ r.y ≤ 0) :
    update s r = move r := by
  rw [update_eq, collideRight_of_not s r h1, collideLeft_of_not r h2,
    collideBottom_of_not s r h3, collideTop_of_not r h4]

theorem updateColor_iterate_colorIndex (r : FlyingRectangle) (n : Nat) :
    (updateColor^[n] r).colorIndex = r.colorIndex + n := by
  induction n generalizing r with
  | zero => rfl
  | succ n ih =>
    rw [Function.iterate_succ_apply, ih]
    simp only [updateColor]
    omega

theorem updateColor_iterate_colorOk (n : Nat) :
    ∀ r : FlyingRectangle, r.colorOk → (updateColor^[n] r).colorOk := by
  induction n with
  | zero => exact fun r h => h
  | succ n ih =>
    intro r h
    rw [Function.iterate_succ_apply]
    exact ih _ (updateColor_colorOk r)

/-- The invariant holds of the freshly constructed entity, provided the
surface is at least as large as the rectangle on each axis. -/
theorem init_inv (s : Sizes) (hW : 128 ≤ s.CANVAS_WIDTH)
    (hH : 72 ≤ s.CANVAS_HEIGHT) : (init s).Inv s := by
  have hx : (init s).x = (s.CANVAS_WIDTH - 128) / 2 := by
    unfold init Sizes.rectCenterX
    simp only [Sizes.RECT_WIDTH]
    exact Int.fdiv_eq_ediv _ (by norm_num)
  have hy : (init s).y = (s.CANVAS_HEIGHT - 72) / 2 := by
    unfold init Sizes.rectCenterY
    simp only [Sizes.RECT_HEIGHT]
    exact Int.fdiv_eq_ediv _ (by norm_num)
  have hs : (init s).speed = 2 := rfl
  unfold Inv
  rw [hs, hx, hy]
  exact ⟨rfl, Or.inr rfl, Or.inr rfl, by omega, by omega, by omega, by omega⟩

/-- One `update()` preserves the invariant, provided the surface is at least
as large as the rectangle on each axis. -/
theorem update_inv_step (s : Sizes) (hW : 128 ≤ s.CANVAS_WIDTH)
    (hH : 72 ≤ s.CANVAS_HEIGHT) (r : FlyingRectangle) (h : r.Inv s) :
    (update s r).Inv s := by
  obtain ⟨hs, hxd, hyd, hx1, hx2, hy1, hy2⟩ := h
  unfold Inv
  simp only [update_speed, update_x, update_y, update_xDir, update_yDir,
    Sizes.RECT_WIDTH, Sizes.RECT_HEIGHT, Directions.RIGHT, Directions.LEFT,
    Directions.UP, Directions.DOWN] at *
  rw [hs]
  refine ⟨rfl, ?_, ?_, ?_, ?_, ?_, ?_⟩ <;> split_ifs <;> omega

end FlyingRectangle

/-- C1. In the interior — `0 < x < surfaceWidth - rectWidth` and
`0 < y < surfaceHeight - rectHeight` — a single `update()` moves the
position by exactly `(xDir*speed, yDir*speed)` and leaves the color index,
the cached color and both directions unchanged. -/
theorem update_interior_step (s : Sizes) (r : FlyingRectangle)
    (hx0 : 0 < r.x) (hxW : r.x < s.CANVAS_WIDTH - s.RECT_WIDTH)
    (hy0 : 0 < r.y) (hyH : r.y < s.CANVAS_HEIGHT - s.RECT_HEIGHT) :
    (FlyingRectangle.update s r).x = r.x + r.xDir * r.speed ∧
    (FlyingRectangle.update s r).y = r.y + r.yDir * r.speed ∧
    (FlyingRectangle.update s r).colorIndex = r.colorIndex ∧
    (FlyingRectangle.update s r).color = r.color ∧
    (FlyingRectangle.update s r).xDir = r.xDir ∧
    (FlyingRectangle.update s r).yDir = r.yDir := by
  have e : FlyingRectangle.update s r = FlyingRectangle.move r :=
    FlyingRectangle.update_interior s r (by omega) (by omega) (by omega) (by omega)
  rw [e]
  exact ⟨rfl, rfl, rfl, rfl, rfl, rfl⟩

/-- Witness for C1: the freshly centered rectangle on a 1000×800 surface is
interior, and one `update()` moves it by `(+2, +2)`. -/
theorem update_interior_step_witness :
    (FlyingRectangle.update ⟨1000, 800⟩ (FlyingRectangle.init ⟨1000, 800⟩)).x
      = (FlyingRectangle.init ⟨1000, 800⟩).x
        + (FlyingRectangle.init ⟨1000, 800⟩).xDir
          * (FlyingRectangle.init ⟨1000, 800⟩).speed :=
  (update_interior_step ⟨1000, 800⟩ (FlyingRectangle.init ⟨1000, 800⟩)
    (by decide) (by decide) (by decide) (by decide)).1

/-- C2, counterexample. The spec's boundary example claims that from
`x = 874` moving right on a 1000-wide surface the next `update()` yields
`x = 876` without flipping. In fact `874 + 128 = 1002 ≥ 1000`, so the very
first call already flips to LEFT and yields `x = 872`. -/
theorem boundary_example_counterexample :
    ¬ ((FlyingRectangle.update ⟨1000, 800⟩ ⟨0, ("red"), 2, 874, 300, 1, 1⟩).x = 876 ∧
       (FlyingRectangle.update ⟨1000, 800⟩ ⟨0, ("red"), 2, 874, 300, 1, 1⟩).xDir = 1) := by
  decide

/-- C2, amended. With `rectWidth = 128`, `surfaceWidth = 1000`, speed 2,
starting at `x = 874` moving right away from the y-boundaries: the first
`update()` already satisfies `874 + 128 = 1002 ≥ 1000`, so it flips the
x-direction to LEFT, advances the color by exactly 1 and yields `x = 872`;
the second call still satisfies `872 + 128 = 1000 ≥ 1000`, advancing the
color once more and yielding `x = 870`; the third call decreases `x` by 2
with no color change. -/
theorem boundary_example_trace :
    let s : Sizes := ⟨1000, 800⟩
    let r0 : FlyingRectangle := ⟨0, ("red"), 2, 874, 300, 1, 1⟩
    let r1 := FlyingRectangle.update s r0
    let r2 := FlyingRectangle.update s r1
    let r3 := FlyingRectangle.update s r2
    r1.x = 872 ∧ r1.xDir = Directions.LEFT ∧ r1.colorIndex = 1 ∧
    r2.x = 870 ∧ r2.xDir = Directions.LEFT ∧ r2.colorIndex = 2 ∧
    r3.x = 868 ∧ r3.xDir = Directions.LEFT ∧ r3.colorIndex = 2 := by
  decide

/-- C3, counterexample. On a surface narrower than the rectangle both
x-checks can fire together with a y-check: at `x = 0`, `y = 250` on a
100×300 surface an x-boundary condition and a y-boundary condition hold,
yet one `update()` advances the color counter by 3, not 2. -/
theorem corner_counterexample :
    let s : Sizes := ⟨100, 300⟩
    let r : FlyingRectangle := ⟨0, ("red"), 2, 0, 250, 1, 1⟩
    (r.x + s.RECT_WIDTH ≥ s.CANVAS_WIDTH ∨ r.x ≤ 0) ∧
    (r.y + s.RECT_HEIGHT ≥ s.CANVAS_HEIGHT ∨ r.y ≤ 0) ∧
    (FlyingRectangle.update s r).colorIndex ≠ r.colorIndex + 2 := by
  decide

/-- C3, amended. Provided the surface is strictly larger than the rectangle
on both axes (so that the two checks of one axis are mutually exclusive), a
single `update()` in which an x-boundary condition and a y-boundary
condition both hold advances the color counter by exactly 2. -/
theorem corner_double_color (s : Sizes) (r : FlyingRectangle)
    (hW : s.RECT_WIDTH < s.CANVAS_WIDTH) (hH : s.RECT_HEIGHT < s.CANVAS_HEIGHT)
    (hx : r.x + s.RECT_WIDTH ≥ s.CANVAS_WIDTH ∨ r.x ≤ 0)
    (hy : r.y + s.RECT_HEIGHT ≥ s.CANVAS_HEIGHT ∨ r.y ≤ 0) :
    (FlyingRectangle.update s r).colorIndex = r.colorIndex + 2 := by
  rw [FlyingRectangle.update_colorIndex]
  simp only [Sizes.RECT_WIDTH, Sizes.RECT_HEIGHT] at *
  rcases hx with hx | hx <;> rcases hy with hy | hy <;> split_ifs <;> omega

/-- Witness for C3: a genuine corner hit (bottom-right) on a 1000×800
surface advances the color counter from 0 to 2. -/
theorem corner_double_color_witness :
    (FlyingRectangle.update ⟨1000, 800⟩ ⟨0, ("red"), 2, 880, 760, 1, 1⟩).colorIndex
      = (⟨0, ("red"), 2, 880, 760, 1, 1⟩ : FlyingRectangle).colorIndex + 2 :=
  corner_double_color ⟨1000, 800⟩ ⟨0, ("red"), 2, 880, 760, 1, 1⟩
    (by decide) (by decide) (Or.inl (by decide)) (Or.inl (by decide))

/-- C8. `setup()` has an empty body: it leaves every field of the
`FlyingRectangle` state unchanged. -/
theorem setup_is_noop (r : FlyingRectangle) :
    (FlyingRectangle.setup r).colorIndex = r.colorIndex ∧
    (FlyingRectangle.setup r).color = r.color ∧
    (FlyingRectangle.setup r).speed = r.speed ∧
    (FlyingRectangle.setup r).x = r.x ∧
    (FlyingRectangle.setup r).y = r.y ∧
    (FlyingRectangle.setup r).xDir = r.xDir ∧
    (FlyingRectangle.setup r).yDir = r.yDir :=
  ⟨rfl, rfl, rfl, rfl, rfl, rfl, rfl⟩

/-- C9. If both x-checks hold at the start of one `update()` (possible only
when the surface is no wider than the rectangle), the left-boundary check
runs second and overrides the right-boundary check, so the step ends moving
RIGHT, and the x-axis checks alone contribute exactly 2 color increments. -/
theorem double_x_boundary_override (s : Sizes) (r : FlyingRectangle)
    (h1 : r.x + s.RECT_WIDTH ≥ s.CANVAS_WIDTH) (h2 : r.x ≤ 0) :
    (FlyingRectangle.update s r).xDir = Directions.RIGHT ∧
    s.CANVAS_WIDTH ≤ s.RECT_WIDTH ∧
    (FlyingRectangle.update s r).colorIndex = r.colorIndex + 2
      + (if r.y + s.RECT_HEIGHT ≥ s.CANVAS_HEIGHT then 1 else 0)
      + (if r.y ≤ 0 then 1 else 0) := by
  refine ⟨?_, ?_, ?_⟩
  · rw [FlyingRectangle.update_xDir, if_pos h2]
  · simp only [Sizes.RECT_WIDTH] at *
    omega
  · rw [FlyingRectangle.update_colorIndex]
    split_ifs <;> omega

/-- Witness for C9: on a 100-wide surface with the rectangle at `x = 0`,
both x-checks fire and the step ends moving RIGHT. -/
theorem double_x_boundary_override_witness :
    (FlyingRectangle.update ⟨100, 300⟩ ⟨0, ("red"), 2, 0, 150, 1, 1⟩).xDir
      = Directions.RIGHT :=
  (double_x_boundary_override ⟨100, 300⟩ ⟨0, ("red"), 2, 0, 150, 1, 1⟩
    (by decide) (by decide)).1

/-- C4, counterexample. The invariant as stated holds for no surface smaller
than the rectangle: on a 10×10 surface the centering initializer already
places the rectangle at `x = -59 < -speed`, and the initial state is the
state at the start of the first `update()` call. -/
theorem invariant_counterexample :
    ¬ ((FlyingRectangle.update ⟨10, 10⟩)^[0] (FlyingRectangle.init ⟨10, 10⟩)).Inv ⟨10, 10⟩ := by
  decide

/-- C4, amended. Provided the surface is at least as large as the rectangle
on each axis, every state reachable from the initial state by repeated
`update()` calls has speed 2, unit directions, and position within
`[-speed, surfaceDimension]` on each axis — in particular at the start of
every `update()` call. -/
theorem reachable_invariant (s : Sizes) (hW : 128 ≤ s.CANVAS_WIDTH)
    (hH : 72 ≤ s.CANVAS_HEIGHT) (n : Nat) :
    ((FlyingRectangle.update s)^[n] (FlyingRectangle.init s)).Inv s := by
  induction n with
  | zero => exact FlyingRectangle.init_inv s hW hH
  | succ n ih =>
    rw [Function.iterate_succ_apply']
    exact FlyingRectangle.update_inv_step s hW hH _ ih

/-- Witness for C4: on a 1000×800 surface the state after three updates
satisfies the invariant. -/
theorem reachable_invariant_witness :
    ((FlyingRectangle.update ⟨1000, 800⟩)^[3] (FlyingRectangle.init ⟨1000, 800⟩)).Inv
      ⟨1000, 800⟩ :=
  reachable_invariant ⟨1000, 800⟩ (by decide) (by decide) 3

/-- C5. The color counter never decreases: `update()` only increases it,
`updateColor()` increments it by exactly 1, `setup()` and `render()` leave
the state untouched. The effective color always equals
`colors[colorIndex % colors.length]`: this holds at construction, is
preserved by `updateColor()` and `update()`, and so holds in every reachable
state. After exactly 8 increments from counter 0 the effective color is
again the palette's index-0 color. -/
theorem color_counter_properties (s : Sizes) (r : FlyingRectangle) (n : Nat) :
    r.colorIndex ≤ (FlyingRectangle.update s r).colorIndex ∧
    (FlyingRectangle.updateColor r).colorIndex = r.colorIndex + 1 ∧
    (FlyingRectangle.setup r).colorIndex = r.colorIndex ∧
    (FlyingRectangle.render s r).1 = r ∧
    (r.colorOk → (FlyingRectangle.update s r).colorOk) ∧
    (FlyingRectangle.updateColor r).colorOk ∧
    (FlyingRectangle.init s).colorOk ∧
    ((FlyingRectangle.update s)^[n] (FlyingRectangle.init s)).colorOk ∧
    (FlyingRectangle.updateColor^[8] (FlyingRectangle.init s)).colorIndex = 8 ∧
    (FlyingRectangle.updateColor^[8] (FlyingRectangle.init s)).color
      = colors.getD 0 ("") := by
  refine ⟨?_, rfl, rfl, rfl, FlyingRectangle.update_colorOk s r,
    FlyingRectangle.updateColor_colorOk r, FlyingRectangle.init_colorOk s,
    ?_, ?_, ?_⟩
  · rw [FlyingRectangle.update_colorIndex]
    split_ifs <;> omega
  · induction n with
    | zero => exact FlyingRectangle.init_colorOk s
    | succ n ih =>
      rw [Function.iterate_succ_apply']
      exact FlyingRectangle.update_colorOk s _ ih
  · rw [FlyingRectangle.updateColor_iterate_colorIndex]
    rfl
  · have h := FlyingRectangle.updateColor_iterate_colorOk 8
      (FlyingRectangle.init s) (FlyingRectangle.init_colorOk s)
    unfold FlyingRectangle.colorOk at h
    rw [FlyingRectangle.updateColor_iterate_colorIndex] at h
    simpa [FlyingRectangle.init, colors] using h

/-- Witness for C5: applying the theorem on a 1000×800 surface to the
initial state, whose cached color is consistent, shows one `update()`
preserves the consistency. -/
theorem color_counter_properties_witness :
    (FlyingRectangle.update ⟨1000, 800⟩ (FlyingRectangle.init ⟨1000, 800⟩)).colorOk :=
  (color_counter_properties ⟨1000, 800⟩ (FlyingRectangle.init ⟨1000, 800⟩) 0).2.2.2.2.1
    (by decide)

/-- C6. Startup has exactly the two fallible conditions: a missing mounting
point yields the root-missing error before any construction, an unobtainable
2d context yields the context error, and when neither holds startup returns
the fully constructed driver (with its empty entity collection); the error
outcomes carry no driver at all. -/
theorem startup_fallibility (s : Sizes) (root? : Option MountElem) (ctx : Bool) :
    (root? = none → startup s root? ctx = Except.error ("Root element is missing")) ∧
    (∀ root : MountElem, root? = some root → ctx = false →
      startup s root? ctx = Except.error ("Failed to retrieve rendering context")) ∧
    (∀ root : MountElem, root? = some root → ctx = true →
      startup s root? ctx = Except.ok { entities := [] }) := by
  refine ⟨?_, ?_, ?_⟩
  · rintro rfl
    rfl
  · rintro root rfl rfl
    rfl
  · rintro root rfl rfl
    rfl

/-- Witness for C6: the three startup outcomes at a concrete surface and
mounting element. -/
theorem startup_fallibility_witness :
    startup ⟨1000, 800⟩ none true = Except.error ("Root element is missing") ∧
    startup ⟨1000, 800⟩ (some ⟨[]⟩) false
      = Except.error ("Failed to retrieve rendering context") ∧
    startup ⟨1000, 800⟩ (some ⟨[]⟩) true = Except.ok { entities := [] } :=
  ⟨(startup_fallibility ⟨1000, 800⟩ none true).1 rfl,
   (startup_fallibility ⟨1000, 800⟩ (some ⟨[]⟩) false).2.1 ⟨[]⟩ rfl rfl,
   (startup_fallibility ⟨1000, 800⟩ (some ⟨[]⟩) true).2.2 ⟨[]⟩ rfl rfl⟩

/-- C7. A frame's output is the full-surface clear followed by each entity's
drawing commands in collection order; rendering mutates no simulation state,
so rendering again from the resulting state yields the same output. -/
theorem render_frame_output (s : Sizes) (app : Application) :
    (Application.render s app).2 =
      DrawCmd.clearRect 0 0 s.CANVAS_WIDTH s.CANVAS_HEIGHT ::
        (app.entities.map (fun e => (FlyingRectangle.render s e).2)).flatten ∧
    (Application.render s app).1 = app ∧
    (Application.render s (Application.render s app).1).2
      = (Application.render s app).2 := by
  have h1 : (Application.render s app).1 = app := by
    simp [Application.render, FlyingRectangle.render, List.map_map,
      Function.comp_def]
  refine ⟨?_, h1, by rw [h1]⟩
  simp [Application.render, Application.clear, FlyingRectangle.render,
    List.map_map, Function.comp_def]

/-- C10. `Application.create` appends the canvas to the mounting element
before attempting to obtain the 2d context, so on the failure path the error
is raised with the canvas already attached: the mounting point is mutated
even though no driver is produced. -/
theorem create_mutates_mount_on_failure (s : Sizes) (root : MountElem) (ctx : Bool) :
    (Application.create s ctx root).1.children = root.children ++
      [{ width := s.CANVAS_WIDTH, height := s.CANVAS_HEIGHT,
         style := ("background: #000") }] ∧
    (ctx = false → (Application.create s ctx root).2 =
      Except.error ("Failed to retrieve rendering context")) := by
  constructor
  · unfold Application.create
    split_ifs <;> rfl
  · rintro rfl
    rfl

/-- Witness for C10: the failure path at a concrete surface and an initially
empty mounting element. -/
theorem create_mutates_mount_on_failure_witness :
    (Application.create ⟨1000, 800⟩ false ⟨[]⟩).2
      = Except.error ("Failed to retrieve rendering context") :=
  (create_mutates_mount_on_failure ⟨1000, 800⟩ ⟨[]⟩ false).2 rfl
